import Mathlib

/-!
# Verification of the actual-budget GoCardless/Nordigen bank-sync core

A shallow embedding, in Lean 4, of the bank-adapter and orchestration layer
of the repository: the NORDEA_NDEADKKK adapter, the default
("Fallback"-shaped) adapter found in the sources, the ENTERCARD_SWEDNOKK
adapter, the Nordigen error taxonomy and the orchestration service
(`getLinkedRequisition`, `getRequisitionWithAccounts`,
`getTransactionsWithBalance`, `setToken`).

JavaScript semantics relevant to the embedded code is made explicit:
* optional / possibly-`undefined` string fields are `Option String`;
* JS truthiness of such a field (`undefined` and `""` are falsy) is
  `jsTruthy`, and `a || b` is `jsOr`;
* string coercion of `undefined` (as in `undefined + ' x'`, which yields
  the string `"undefined x"`) is `jsStr`;
* a thrown `TypeError` (property access on `undefined`) or
  `ReferenceError` (evaluating an undeclared identifier) is modelled with
  `Except JsError`;
* `NaN` produced by arithmetic on an unparseable amount string is the
  `none` value of a `Option Int` result (JS numbers on the amounts in
  scope are exact, so integer arithmetic models them faithfully).
-/

/-- JS truthiness of an optional string field: `undefined` and `""` are falsy. -/
def jsTruthy : Option String → Bool
  | none => false
  | some s => s ≠ ""

/-- JS `a || b` on optional string fields: returns `a` when `a` is truthy, else `b`. -/
def jsOr (a b : Option String) : Option String :=
  if jsTruthy a then a else b

/-- JS string coercion of a possibly-`undefined` string: `undefined` prints as `"undefined"`. -/
def jsStr : Option String → String
  | none => "undefined"
  | some s => s

/-- JS `String.prototype.startsWith`: a character-exact prefix test. -/
def jsStartsWith (s pre : String) : Bool :=
  pre.toList.isPrefixOf s.toList

/-- Runtime errors the embedded JavaScript can throw. -/
inductive JsError where
  /-- property access on `undefined` -/
  | typeError
  /-- evaluation of an undeclared identifier -/
  | referenceError
  deriving Repr, DecidableEq

/-- `transactionAmount` object: a decimal-string amount and a currency. -/
structure TransactionAmount where
  amount : String
  currency : String
  deriving Repr, DecidableEq

/-- A raw transaction as delivered by the aggregation API.  Fields that a
given institution may omit are `Option`s; `none` is JS `undefined`. -/
structure Transaction where
  transactionId : Option String := none
  internalTransactionId : Option String := none
  bookingDate : Option String := none
  bookingDateTime : Option String := none
  valueDate : Option String := none
  valueDateTime : Option String := none
  remittanceInformationUnstructured : Option String := none
  remittanceInformationStructured : Option String := none
  remittanceInformationStructuredArray : Option (List String) := none
  additionalInformation : Option String := none
  ultimateCreditor : Option String := none
  creditorName : Option String := none
  debtorName : Option String := none
  transactionAmount : TransactionAmount := ⟨"0", ""⟩
  deriving Repr, DecidableEq

/-- The result of `normalizeTransaction`: the spread of the raw transaction
(with some fields overridden) plus the `date` and `payeeName` fields the
adapters add. -/
structure NormalizedTransaction where
  /-- the spread raw-transaction fields, after per-adapter overrides -/
  tx : Transaction
  /-- the added `date` field -/
  date : Option String
  /-- the added `payeeName` field (only some adapters set it) -/
  payeeName : Option String := none
  deriving Repr, DecidableEq

/-- Digits (most significant first) to the natural number they denote. -/
def digitsToNat (cs : List Char) : Nat :=
  cs.foldl (fun n c => n * 10 + (c.toNat - 48)) 0

/-- Parse a decimal string `[-]digits[.digits]` to the exact fraction
`n / d` it denotes, as a pair of an integer numerator and a positive power
of ten; `none` models JS `NaN` for any other shape. -/
def parseDecimal (s : String) : Option (Int × Nat) :=
  let cs := s.toList
  let signed := cs.head? = some '-'
  let body := if signed then cs.tail else cs
  let intDs := body.takeWhile (·.isDigit)
  let rest := body.drop intDs.length
  let fracDs? : Option (List Char) :=
    match rest with
    | [] => some []
    | '.' :: fds => if fds.all (·.isDigit) then some fds else none
    | _ => none
  match fracDs? with
  | none => none
  | some fds =>
    if intDs.isEmpty && fds.isEmpty then none
    else
      let n : Int := (digitsToNat (intDs ++ fds) : Int)
      some (if signed then -n else n, 10 ^ fds.length)

/-- `amountToInteger` from `utils.js` (`Math.round(n * 100)`): the amount
string denoting the exact rational `n / d` maps to
`Math.round(100 * n / d) = ⌊100 * n / d + 1 / 2⌋` (JS rounds ties toward
`+∞`, as `⌊· + 1 / 2⌋` does), computed exactly by the floor division
`(200 * n + d).fdiv (2 * d)`.  `none` models the `NaN` produced from an
unparseable string. -/
def amountToInteger (s : String) : Option Int :=
  (parseDecimal s).map (fun nd => (200 * nd.fst + (nd.snd : Int)).fdiv (2 * (nd.snd : Int)))

/-- JS subtraction where either side may be `NaN` (`none`). -/
def jsSub (a b : Option Int) : Option Int :=
  match a, b with
  | some x, some y => some (x - y)
  | _, _ => none

/-- `normalizeTransaction` of the default ("Fallback"-shaped) adapter
(`src/unnamed/part_001`, lines 34-76): pick a date out of the four date
fields and drop the transaction when all are missing; choose the remittance
text; prefer the ultimate creditor name; the returned `date` field is
`bookingDate || valueDate`. -/
def fallbackNormalizeTransaction (transaction : Transaction) :
    Option NormalizedTransaction :=
  let date :=
    jsOr transaction.bookingDate
      (jsOr transaction.bookingDateTime
        (jsOr transaction.valueDate transaction.valueDateTime))
  if ¬ jsTruthy date then
    none
  else
    let riu0 : Option String :=
      if jsTruthy transaction.remittanceInformationUnstructured then
        transaction.remittanceInformationUnstructured
      else if jsTruthy transaction.remittanceInformationStructured then
        transaction.remittanceInformationStructured
      else if 0 < (transaction.remittanceInformationStructuredArray.getD []).length then
        some (String.intercalate " " (transaction.remittanceInformationStructuredArray.getD []))
      else
        none
    let riu1 : Option String :=
      if jsTruthy transaction.additionalInformation then
        some (jsStr riu0 ++ " " ++ jsStr transaction.additionalInformation)
      else
        riu0
    let usefulCreditorName :=
      jsOr transaction.ultimateCreditor
        (jsOr transaction.creditorName transaction.debtorName)
    some
      { tx := { transaction with
                  creditorName := usefulCreditorName
                  remittanceInformationUnstructured := riu1 }
        date := jsOr transaction.bookingDate transaction.valueDate }

/-- Modelled from the spec: `formatPayeeName` from `util/payee-name.js` is
not in the sources; the spec only lists creditor/debtor name fields on the
raw transaction, so the payee name is modelled as the first present of
them. No claim depends on its value. -/
def formatPayeeName (t : Transaction) : Option String :=
  jsOr t.creditorName t.debtorName

/-- `normalizeTransaction` of the NORDEA_NDEADKKK adapter
(`src/unnamed/part_000`, lines 34-48).  For a `transactionId` starting with
`'P'` the source executes `return {Null};`, an object literal whose
shorthand property evaluates the undeclared identifier `Null` and thus
throws a `ReferenceError` instead of returning `null`; a missing
`transactionId` makes `.startsWith` throw a `TypeError`. -/
def nordeaNormalizeTransaction (transaction : Transaction) :
    Except JsError NormalizedTransaction :=
  match transaction.transactionId with
  | none => .error .typeError
  | some tid =>
    if jsStartsWith tid "P" then
      .error .referenceError
    else
      .ok { tx := transaction
            payeeName := formatPayeeName transaction
            date := jsOr transaction.bookingDate transaction.valueDate }

/-- Modelled from the spec: the date-fns call
`format(parseISO(s), 'yyyy-MM-dd')` used by ENTERCARD_SWEDNOKK is an
external library; on an ISO date-time string it yields the ten-character
calendar-date prefix. No claim depends on its value. -/
def formatISODate (s : String) : String := s.take 10

/-- `normalizeTransaction` of the ENTERCARD_SWEDNOKK adapter
(`src/src/app-gocardless/banks/entercard_swednokk.js`, lines 12-31), in
state-passing form: the first component of the result is the raw
transaction object as it stands after the call.  When the unstructured
remittance text starts with `"billingAmount: "` the source assigns
`transaction.transactionAmount = {amount: ..., currency: 'SEK'}`, mutating
the argument.  A missing unstructured remittance makes `.startsWith` throw
a `TypeError`; a missing `valueDate` makes the date-fns parse/format throw. -/
def entercardNormalizeTransaction (transaction : Transaction) :
    Except JsError (Transaction × NormalizedTransaction) :=
  match transaction.remittanceInformationUnstructured with
  | none => .error .typeError
  | some riu =>
    let transaction' :=
      if jsStartsWith riu "billingAmount: " then
        { transaction with transactionAmount := ⟨riu.drop 15, "SEK"⟩ }
      else
        transaction
    match transaction'.valueDate with
    | none => .error .typeError
    | some vd =>
      .ok (transaction',
        { tx := transaction'
          payeeName := formatPayeeName transaction'
          date := some (formatISODate vd) })

/-- State-passing form of the default `normalizeTransaction`: its source
body contains no assignment to the argument object, so the post-call
argument is the argument itself. -/
def fallbackNormalizeTransactionS (transaction : Transaction) :
    Transaction × Option NormalizedTransaction :=
  (transaction, fallbackNormalizeTransaction transaction)

/-- An institution record as returned by the aggregation API. -/
structure Institution where
  id : String
  name : String := ""
  status_code : Option Int := none
  deriving Repr, DecidableEq

/-- A detailed account: the merge of the details and metadata responses,
possibly extended with its institution record. -/
structure DetailedAccount where
  id : Option String := none
  iban : Option String := none
  name : Option String := none
  product : Option String := none
  institution_id : String := ""
  institution : Option Institution := none
  deriving Repr, DecidableEq

/-- The stable output shape of `normalizeAccount`. -/
structure NormalizedAccount where
  account_id : Option String
  institution : Option Institution
  mask : String
  iban : String
  name : String
  official_name : Option String
  type : String
  deriving Repr, DecidableEq

/-- Modelled from the spec: `printIban` from `utils.js` is not in the
sources; the spec says the default display name concatenates the owner
name and a formatted IBAN, modelled here as a masked display of the last
four characters. No claim depends on the exact format. -/
def printIban (iban : String) : String := "(XXX " ++ iban.takeRight 4 ++ ")"

/-- `normalizeAccount` of the default adapter (`src/unnamed/part_001`,
lines 14-24; identical in `src/unnamed/part_000`), in state-passing form:
the source reads fields only, so the post-call argument is the argument
itself.  `account.iban.slice(-4)` throws a `TypeError` when `iban` is
missing; `[account.name, printIban(account)].join(' ')` renders a missing
name as the empty string. -/
def normalizeAccount (account : DetailedAccount) :
    Except JsError (DetailedAccount × NormalizedAccount) :=
  match account.iban with
  | none => .error .typeError
  | some ib =>
    .ok (account,
      { account_id := account.id
        institution := account.institution
        mask := ib.takeRight 4
        iban := ib
        name := (account.name.getD "") ++ " " ++ printIban ib
        official_name := account.product
        type := "checking" })

/-- `balanceAmount` object: a decimal-string amount and a currency. -/
structure BalanceAmount where
  amount : String
  currency : String := ""
  deriving Repr, DecidableEq

/-- A typed balance snapshot. -/
structure Balance where
  balanceType : String
  balanceAmount : BalanceAmount
  deriving Repr, DecidableEq

/-- Default `calculateStartingBalance` (`src/unnamed/part_001` lines 90-98,
identical in `src/unnamed/part_000` lines 58-66): find the first
`interimAvailable` balance and subtract every transaction amount from its
minor-unit value.  When no such balance exists the source dereferences
`currentBalance.balanceAmount` on `undefined` and throws a `TypeError`,
already while evaluating the initial accumulator, hence for every
transaction list. -/
def calculateStartingBalance (sortedTransactions : List Transaction)
    (balances : List Balance) : Except JsError (Option Int) :=
  match balances.find? (fun balance => "interimAvailable" = balance.balanceType) with
  | none => .error .typeError
  | some currentBalance =>
    .ok (sortedTransactions.foldl
      (fun total trans => jsSub total (amountToInteger trans.transactionAmount.amount))
      (amountToInteger currentBalance.balanceAmount.amount))

/-- The typed errors of the Nordigen error taxonomy
(`src/unnamed/part_002`, the `require('../errors')` list). -/
inductive NordigenError where
  | invalidInputData
  | invalidNordigenToken
  | accessDenied
  | notFound
  | resourceSuspended
  | rateLimit
  | unknown
  | serviceError
  deriving Repr, DecidableEq

/-- `handleNordigenError` (`src/unnamed/part_002`, lines 23-44): the switch
on `response.status_code`; `some e` models a thrown typed error, `none` the
`default: return` branch. -/
def handleNordigenError (status_code : Option Int) : Option NordigenError :=
  if status_code = some 400 then some .invalidInputData
  else if status_code = some 401 then some .invalidNordigenToken
  else if status_code = some 403 then some .accessDenied
  else if status_code = some 404 then some .notFound
  else if status_code = some 409 then some .resourceSuspended
  else if status_code = some 429 then some .rateLimit
  else if status_code = some 500 then some .unknown
  else if status_code = some 503 then some .serviceError
  else none

/-- Everything the orchestration service can fail with: a typed taxonomy
error, a domain validation error, or a JS runtime fault. -/
inductive SvcError where
  | nordigen (e : NordigenError)
  | requisitionNotLinked (requisitionStatus : String)
  /-- the source spells the class name `AccountNotLinedToRequisition` -/
  | accountNotLinedToRequisition (accountId requisitionId : String)
  | js (e : JsError)
  deriving Repr, DecidableEq

/-- `generateToken` response. -/
structure TokenResponse where
  access : String
  status_code : Option Int := none
  deriving Repr, DecidableEq

/-- `requisition.getRequisitionById` response. -/
structure RequisitionResponse where
  id : String := ""
  status : String
  accounts : List String := []
  institution_id : String := ""
  status_code : Option Int := none
  deriving Repr, DecidableEq

/-- `account(id).getDetails()` response. -/
structure DetailsResponse where
  account : DetailedAccount
  status_code : Option Int := none
  deriving Repr, DecidableEq

/-- `account(id).getMetadata()` response. -/
structure MetadataResponse where
  id : String := ""
  institution_id : String := ""
  status_code : Option Int := none
  deriving Repr, DecidableEq

/-- The booked/pending lists inside a transactions response. -/
structure BookedPending where
  booked : Option (List Transaction) := none
  pending : Option (List Transaction) := none
  deriving Repr, DecidableEq

/-- `account(id).getTransactions(...)` response. -/
structure TransactionsResponse where
  transactions : Option BookedPending := none
  status_code : Option Int := none
  deriving Repr, DecidableEq

/-- `account(id).getBalances()` response. -/
structure BalancesResponse where
  balances : List Balance := []
  status_code : Option Int := none
  deriving Repr, DecidableEq

/-- The aggregation-API client (external collaborator, §6 of the spec):
the responses it would deliver, one field per endpoint. -/
structure AggregationClient where
  generateToken : TokenResponse
  getRequisitionById : String → RequisitionResponse
  getDetails : String → DetailsResponse
  getMetadata : String → MetadataResponse
  getInstitutionById : String → Institution
  getTransactions : String → String → String → TransactionsResponse
  getBalances : String → BalancesResponse

/-- The service monad: the only state threaded through the orchestration
service is the process-wide cached access token. -/
def SvcM (α : Type) : Type := Option String → Except SvcError (Option String × α)

/-- Lift `handleNordigenError` into the service: a mapped status code
becomes a thrown typed error. -/
def checkNordigen (status_code : Option Int) : Except SvcError Unit :=
  match handleNordigenError status_code with
  | some e => .error (.nordigen e)
  | none => .ok ()

/-- `nordigenService.setToken` (`src/unnamed/part_002`, lines 51-57): fetch
and cache the token only when `nordigenClient.token` is falsy. -/
def setToken (client : AggregationClient) : SvcM Unit := fun token =>
  if jsTruthy token then
    .ok (token, ())
  else
    match checkNordigen client.generateToken.status_code with
    | .error e => .error e
    | .ok () => .ok (some client.generateToken.access, ())

/-- `nordigenService.getRequisition` (`src/unnamed/part_002`): `setToken`,
then fetch the requisition and pass it through the error taxonomy. -/
def getRequisition (client : AggregationClient) (requisitionId : String) :
    SvcM RequisitionResponse := fun token =>
  match setToken client token with
  | .error e => .error e
  | .ok (token', ()) =>
    let response := client.getRequisitionById requisitionId
    match checkNordigen response.status_code with
    | .error e => .error e
    | .ok () => .ok (token', response)

/-- `nordigenService.getLinkedRequisition` (`src/unnamed/part_002`, lines
73-85): continue only when the requisition status is `"LN"`. -/
def getLinkedRequisition (client : AggregationClient) (requisitionId : String) :
    SvcM RequisitionResponse := fun token =>
  match getRequisition client requisitionId token with
  | .error e => .error e
  | .ok (token', requisition) =>
    if requisition.status ≠ "LN" then
      .error (.requisitionNotLinked requisition.status)
    else
      .ok (token', requisition)

/-- `nordigenService.getDetailedAccount` (`src/unnamed/part_002`): fetch
details and metadata, pass each through the error taxonomy, and merge them
(`{...metadataAccount, ...detailedAccount.account}`: a field present in the
details payload overrides the metadata field of the same name). -/
def getDetailedAccount (client : AggregationClient) (accountId : String) :
    Except SvcError DetailedAccount :=
  let detailedAccount := client.getDetails accountId
  let metadataAccount := client.getMetadata accountId
  match checkNordigen detailedAccount.status_code with
  | .error e => .error e
  | .ok () =>
    match checkNordigen metadataAccount.status_code with
    | .error e => .error e
    | .ok () =>
      .ok { detailedAccount.account with
              id := detailedAccount.account.id.orElse (fun _ => some metadataAccount.id)
              institution_id := metadataAccount.institution_id }

/-- `nordigenService.getInstitution` (`src/unnamed/part_002`): fetch one
institution record through the error taxonomy. -/
def getInstitution (client : AggregationClient) (institutionId : String) :
    Except SvcError Institution :=
  let response := client.getInstitutionById institutionId
  match checkNordigen response.status_code with
  | .error e => .error e
  | .ok () => .ok response

/-- `nordigenService.extendAccountsAboutInstitutions`
(`src/unnamed/part_002`): join each account with the institution record of
its `institution_id` (`institutionsById[...] || null`; building the lookup
object by `reduce` lets a later duplicate id overwrite an earlier one). -/
def extendAccountsAboutInstitutions (accounts : List DetailedAccount)
    (institutions : List Institution) : List DetailedAccount :=
  accounts.map (fun account =>
    let institution :=
      institutions.foldl
        (fun acc i => if i.id = account.institution_id then some i else acc) none
    { account with institution := institution })

/-- Insertion-ordered deduplication: the iteration order of a JS `Set`
filled by the account loop and read back with `Array.from`. -/
def dedupKeepFirst (xs : List String) : List String :=
  xs.foldl (fun acc x => if x ∈ acc then acc else acc ++ [x]) []

/-- Sequential rendering of `Promise.all` over a list of fallible fetches:
all must succeed, a failure aborts the join. -/
def collectAll {α β : Type} (f : α → Except SvcError β) :
    List α → Except SvcError (List β)
  | [] => .ok []
  | x :: xs =>
    match f x with
    | .error e => .error e
    | .ok y =>
      match collectAll f xs with
      | .error e => .error e
      | .ok ys => .ok (y :: ys)

/-- The slice of the bank-adapter contract the orchestration service uses
(`normalizeTransaction` is applied elsewhere and is embedded above as the
standalone per-adapter functions). -/
structure BankAdapter where
  institutionIds : List String
  normalizeAccount :
    DetailedAccount → Except JsError (DetailedAccount × NormalizedAccount)
  sortTransactions : Option (List Transaction) → List Transaction
  calculateStartingBalance :
    List Transaction → List Balance → Except JsError (Option Int)

/-- Modelled from the spec: the Fallback adapter's `sortTransactions`
(`integration-bank.js` is not in the sources) is a stable pass-through with
a `transactions = []` default parameter, so an `undefined` argument becomes
the empty list. -/
def fallbackSortTransactions (transactions : Option (List Transaction)) :
    List Transaction :=
  transactions.getD []

/-- The Fallback adapter as seen by the orchestration service: the default
`normalizeAccount` and `calculateStartingBalance` are the sources'
default implementations embedded above. -/
def fallbackAdapter : BankAdapter where
  institutionIds := []
  normalizeAccount := normalizeAccount
  sortTransactions := fallbackSortTransactions
  calculateStartingBalance := calculateStartingBalance

/-- The NORDEA_NDEADKKK adapter as seen by the orchestration service
(`src/unnamed/part_000`): it spreads the Fallback and overrides
`normalizeAccount` and `calculateStartingBalance` with textually identical
implementations. -/
def nordeaAdapter : BankAdapter where
  institutionIds := ["NORDEA_NDEADKKK"]
  normalizeAccount := normalizeAccount
  sortTransactions := fallbackSortTransactions
  calculateStartingBalance := calculateStartingBalance

/-- Modelled from the spec: `BankFactory` (`bank-factory.js` is not in the
sources) maps an institution identifier to its statically registered
adapter and defaults to the Fallback adapter; of the registered adapters,
only NORDEA_NDEADKKK is relevant to the orchestration-facing operations
embedded here. -/
def BankFactory (institutionId : String) : BankAdapter :=
  match [nordeaAdapter].find? (fun bank => institutionId ∈ bank.institutionIds) with
  | some bank => bank
  | none => fallbackAdapter

/-- Result shape of `getRequisitionWithAccounts`. -/
structure RequisitionWithAccounts where
  requisition : RequisitionResponse
  accounts : List NormalizedAccount
  deriving Repr, DecidableEq

/-- `nordigenService.getRequisitionWithAccounts` (`src/unnamed/part_002`,
lines 102-133): requires a linked requisition; fetches every linked
account's details, the distinct institutions, joins them, and normalizes
each account through its adapter. -/
def getRequisitionWithAccounts (client : AggregationClient)
    (requisitionId : String) : SvcM RequisitionWithAccounts := fun token =>
  match getLinkedRequisition client requisitionId token with
  | .error e => .error e
  | .ok (token', requisition) =>
    match collectAll (getDetailedAccount client) requisition.accounts with
    | .error e => .error e
    | .ok detailedAccounts =>
      let institutionIdSet :=
        dedupKeepFirst (detailedAccounts.map (fun account => account.institution_id))
      match collectAll (getInstitution client) institutionIdSet with
      | .error e => .error e
      | .ok institutions =>
        let extendedAccounts :=
          extendAccountsAboutInstitutions detailedAccounts institutions
        match collectAll (fun account =>
            match (BankFactory account.institution_id).normalizeAccount account with
            | .error e => .error (SvcError.js e)
            | .ok (_, normalized) => .ok normalized) extendedAccounts with
        | .error e => .error e
        | .ok normalizedAccounts =>
          .ok (token', ⟨requisition, normalizedAccounts⟩)

/-- Result shape of `getTransactionsWithBalance`. -/
structure TransactionsWithBalance where
  balances : List Balance
  institutionId : String
  startingBalance : Option Int
  booked : List Transaction
  pending : List Transaction
  deriving Repr, DecidableEq

/-- `nordigenService.getTransactionsWithBalance` (`src/unnamed/part_002`,
lines 154-199): requires a linked requisition whose account list contains
`accountId`; fetches transactions and balances, sorts booked and pending
through the adapter, and computes the starting balance. -/
def getTransactionsWithBalance (client : AggregationClient)
    (requisitionId accountId startDate endDate : String) :
    SvcM TransactionsWithBalance := fun token =>
  match getLinkedRequisition client requisitionId token with
  | .error e => .error e
  | .ok (token', requisition) =>
    if ¬ requisition.accounts.contains accountId then
      .error (.accountNotLinedToRequisition accountId requisitionId)
    else
      let transactions := client.getTransactions accountId startDate endDate
      let accountBalance := client.getBalances accountId
      match checkNordigen transactions.status_code with
      | .error e => .error e
      | .ok () =>
        match checkNordigen accountBalance.status_code with
        | .error e => .error e
        | .ok () =>
          let bank := BankFactory requisition.institution_id
          let sortedBooked :=
            bank.sortTransactions
              (transactions.transactions.bind (fun t => t.booked))
          let sortedPending :=
            bank.sortTransactions
              (transactions.transactions.bind (fun t => t.pending))
          match bank.calculateStartingBalance sortedBooked
              accountBalance.balances with
          | .error e => .error (.js e)
          | .ok startingBalance =>
            .ok (token',
              { balances := accountBalance.balances
                institutionId := requisition.institution_id
                startingBalance := startingBalance
                booked := sortedBooked
                pending := sortedPending })

/-- Program counter of one caller running `setToken`
(`src/unnamed/part_002`, lines 51-57).  `await nordigenClient.generateToken()`
is the single suspension point: the truthiness check of
`nordigenClient.token` happens before it, the assignment to the cache after
it. -/
inductive TokenPC where
  | start
  | fetched (access : String)
  | done
  deriving Repr, DecidableEq

/-- The shared process state: the cached token and how many `generateToken`
calls have been issued so far. -/
structure TokenState where
  token : Option String := none
  calls : Nat := 0
  deriving Repr, DecidableEq

/-- One atomic step of one `setToken` caller; `accessOf n` is the access
value delivered by the n-th `generateToken` call (counting from 0). -/
def tokenStep (accessOf : Nat → String) (s : TokenState) :
    TokenPC → TokenState × TokenPC
  | .start =>
    if jsTruthy s.token then (s, .done)
    else ({ s with calls := s.calls + 1 }, .fetched (accessOf s.calls))
  | .fetched access => ({ s with token := some access }, .done)
  | .done => (s, .done)

/-- A system of concurrent `setToken` callers: the per-caller program
counters and the shared state. -/
structure TokenWorld where
  threads : List TokenPC
  state : TokenState
  deriving Repr, DecidableEq

/-- Drive the system by a schedule: each entry names the caller that takes
its next atomic step. -/
def runTokenSchedule (accessOf : Nat → String) :
    List Nat → TokenWorld → TokenWorld
  | [], w => w
  | i :: rest, w =>
    let pc := w.threads.getD i .done
    let step := tokenStep accessOf w.state pc
    runTokenSchedule accessOf rest
      { threads := w.threads.set i step.snd, state := step.fst }

/-- `n` first-time callers at a fresh process start: no cached token, no
fetches issued. -/
def freshTokenWorld (n : Nat) : TokenWorld :=
  { threads := List.replicate n .start, state := {} }

/-- The fully serialized schedule: caller 0 runs to completion, then
caller 1, and so on. -/
def serialSchedule (n : Nat) : List Nat :=
  (List.range n).flatMap (fun i => [i, i])

/-- A truthy optional string is not absent. -/
theorem jsTruthy_ne_none {a : Option String} (h : jsTruthy a = true) : a ≠ none := by
  cases a with
  | none => simp [jsTruthy] at h
  | some s => simp

/-- `a || b` is present when `a` or `b` is truthy. -/
theorem jsOr_ne_none {a b : Option String}
    (h : jsTruthy a = true ∨ jsTruthy b = true) : jsOr a b ≠ none := by
  unfold jsOr
  by_cases ha : jsTruthy a = true
  · simpa [ha] using jsTruthy_ne_none ha
  · rcases h with h | h
    · exact absurd h ha
    · simpa [ha] using jsTruthy_ne_none h

/-- C1 (counterexample): a raw transaction carrying only `bookingDateTime`
is accepted by the default `normalizeTransaction` (the date guard looks at
all four date fields), yet the returned `date` field — computed as
`bookingDate || valueDate` — is null, contradicting the claim that every
non-null result has a non-null date. -/
theorem c1_counterexample :
    (fallbackNormalizeTransaction
        { bookingDateTime := some "2023-01-01T10:20:30Z" }).map
      (fun r => r.date) = some none := by decide

/-- C1 (amended): if the default or the NORDEA_NDEADKKK
`normalizeTransaction` returns a transaction and the raw transaction has a
non-empty `bookingDate` or a non-empty `valueDate`, then the result's
`date` field (always `bookingDate || valueDate`) is non-null. -/
theorem c1_date_from_booking_or_value
    (t : Transaction) (r : NormalizedTransaction)
    (hbv : jsTruthy t.bookingDate = true ∨ jsTruthy t.valueDate = true) :
    (fallbackNormalizeTransaction t = some r → r.date ≠ none) ∧
    (nordeaNormalizeTransaction t = .ok r → r.date ≠ none) := by
  constructor
  · intro h
    simp only [fallbackNormalizeTransaction] at h
    split at h
    · exact Option.noConfusion h
    · injection h with h'
      subst h'
      exact jsOr_ne_none hbv
  · intro h
    simp only [nordeaNormalizeTransaction] at h
    split at h
    · exact Except.noConfusion h
    · split at h
      · exact Except.noConfusion h
      · injection h with h'
        subst h'
        exact jsOr_ne_none hbv

/-- C1 (witness): the amended statement applied to a transaction with a
booking date, which the default adapter keeps with that date. -/
theorem c1_witness :
    (fallbackNormalizeTransaction { bookingDate := some "2023-01-02" }).elim
      False (fun r => r.date ≠ none) := by
  have h : fallbackNormalizeTransaction { bookingDate := some "2023-01-02" } =
      some { tx := { bookingDate := some "2023-01-02" }
             date := some "2023-01-02" } := by decide
  rw [h]
  exact (c1_date_from_booking_or_value _ _ (Or.inl (by decide))).1 h

/-- C4: for a transaction whose `transactionId` starts with `'P'`, the
NORDEA_NDEADKKK `normalizeTransaction` does not return the null skip
signal: its `return {Null};` evaluates the undeclared identifier `Null`
inside an object literal and throws a `ReferenceError`. -/
theorem c4_nordea_p_prefix_throws :
    nordeaNormalizeTransaction { transactionId := some "P123" } =
      .error .referenceError := rfl

/-- C2 (counterexample): the ENTERCARD_SWEDNOKK `normalizeTransaction` is
not free of side effects: on a forex transaction whose unstructured
remittance text starts with `"billingAmount: "`, it overwrites the
`transactionAmount` of the raw transaction object passed in. -/
def c2ForexIn : Transaction :=
  { remittanceInformationUnstructured := some "billingAmount: 12.34"
    valueDate := some "2023-01-01"
    transactionAmount := ⟨"56.78", "EUR"⟩ }

/-- C2 (counterexample): evaluating the adapter on `c2ForexIn` leaves the
argument object holding `transactionAmount = ("12.34", "SEK")`, which
differs from the object passed in. -/
theorem c2_counterexample :
    (entercardNormalizeTransaction c2ForexIn).map Prod.fst =
      .ok { c2ForexIn with transactionAmount := ⟨"12.34", "SEK"⟩ } ∧
    ({ c2ForexIn with transactionAmount := ⟨"12.34", "SEK"⟩ } : Transaction) ≠
      c2ForexIn := by
  constructor
  · rfl
  · decide

/-- C2 (amended): the default `normalizeAccount` and `normalizeTransaction`
leave their argument untouched (and, being functions of their input in this
embedding, are deterministic); the ENTERCARD_SWEDNOKK
`normalizeTransaction` leaves its argument untouched exactly when the
unstructured remittance text does not start with `"billingAmount: "`, and
otherwise rewrites the argument's `transactionAmount` to the parsed billed
amount in SEK. -/
theorem c2_purity
    (a : DetailedAccount) (t u : Transaction)
    (outA : DetailedAccount × NormalizedAccount)
    (outE : Transaction × NormalizedTransaction) :
    (normalizeAccount a = .ok outA → outA.fst = a) ∧
    ((fallbackNormalizeTransactionS u).fst = u) ∧
    (entercardNormalizeTransaction t = .ok outE →
      ((jsStartsWith (t.remittanceInformationUnstructured.getD "")
          "billingAmount: " = false → outE.fst = t) ∧
       (jsStartsWith (t.remittanceInformationUnstructured.getD "")
          "billingAmount: " = true →
        outE.fst = { t with transactionAmount :=
          ⟨(t.remittanceInformationUnstructured.getD "").drop 15, "SEK"⟩ }))) := by
  refine ⟨?_, rfl, ?_⟩
  · intro h
    simp only [normalizeAccount] at h
    split at h
    · exact Except.noConfusion h
    · injection h with h'
      subst h'
      rfl
  · intro h
    simp only [entercardNormalizeTransaction] at h
    split at h
    · exact Except.noConfusion h
    · next riu hriu =>
      constructor
      · intro hpre
        rw [hriu] at hpre
        simp only [Option.getD_some] at hpre
        rw [if_neg (by simp [hpre])] at h
        split at h
        · exact Except.noConfusion h
        · injection h with h'
          subst h'
          rfl
      · intro hpre
        rw [hriu] at hpre
        simp only [Option.getD_some] at hpre
        rw [if_pos hpre] at h
        split at h
        · exact Except.noConfusion h
        · injection h with h'
          subst h'
          rw [hriu]
          rfl

/-- C2 (witness): a detailed account with an IBAN. -/
def c2wAccount : DetailedAccount :=
  { id := some "A1", iban := some "DE001234", name := some "Alice"
    product := some "Giro", institution_id := "X" }

/-- C2 (witness): a plain transaction without the forex marker. -/
def c2wPlain : Transaction :=
  { remittanceInformationUnstructured := some "groceries"
    valueDate := some "2023-01-01" }

/-- C2 (witness): on concrete inputs, the default `normalizeAccount`, the
default `normalizeTransaction` and the ENTERCARD adapter off the forex
branch all hand back the argument object unchanged. -/
theorem c2_witness :
    (normalizeAccount c2wAccount).map Prod.fst = .ok c2wAccount ∧
    (fallbackNormalizeTransactionS c2wPlain).fst = c2wPlain ∧
    (entercardNormalizeTransaction c2wPlain).map Prod.fst = .ok c2wPlain := by
  have hA : normalizeAccount c2wAccount = .ok (c2wAccount,
      { account_id := some "A1", institution := none, mask := "1234"
        iban := "DE001234", name := "Alice (XXX 1234)"
        official_name := some "Giro", type := "checking" }) := rfl
  have hE : entercardNormalizeTransaction c2wPlain = .ok (c2wPlain,
      { tx := c2wPlain, date := some "2023-01-01" }) := rfl
  obtain ⟨pA, pS, pE⟩ := c2_purity c2wAccount c2wPlain c2wPlain
    (c2wAccount,
      { account_id := some "A1", institution := none, mask := "1234"
        iban := "DE001234", name := "Alice (XXX 1234)"
        official_name := some "Giro", type := "checking" })
    (c2wPlain, { tx := c2wPlain, date := some "2023-01-01" })
  refine ⟨?_, pS, ?_⟩
  · rw [hA]
    simp only [Except.map, pA hA]
  · rw [hE]
    simp only [Except.map, (pE hE).1 (by decide)]

/-- The remittance text as the claim words it (for comparison with the
code): the unstructured string if present; else the structured string if
present; else the structured-array entries joined with a single space if
the array is non-empty; with `additionalInformation` appended after a
single space whenever it is present. -/
def specRemittanceText (t : Transaction) : Option String :=
  let base : Option String :=
    match t.remittanceInformationUnstructured with
    | some u => some u
    | none =>
      match t.remittanceInformationStructured with
      | some s => some s
      | none =>
        if 0 < (t.remittanceInformationStructuredArray.getD []).length then
          some (String.intercalate " "
            (t.remittanceInformationStructuredArray.getD []))
        else none
  match t.additionalInformation with
  | some ai => some (base.getD "" ++ " " ++ ai)
  | none => base

/-- The remittance base the code actually selects: the first truthy of the
unstructured and structured strings, else the joined structured array when
it is non-empty, else absent. -/
def remittanceBase (t : Transaction) : Option String :=
  jsOr
    (jsOr t.remittanceInformationUnstructured t.remittanceInformationStructured)
    (if 0 < (t.remittanceInformationStructuredArray.getD []).length then
      some (String.intercalate " " (t.remittanceInformationStructuredArray.getD []))
    else none)

/-- Appending `additionalInformation` the way the code does: `base += ' ' + ai`
coerces an absent base to the string `"undefined"`. -/
def appendAdditionalInformation (base ai : Option String) : Option String :=
  if jsTruthy ai then some (jsStr base ++ " " ++ jsStr ai) else base

/-- The if-chain of the source equals the compositional `remittanceBase`. -/
theorem remittanceBase_eq (t : Transaction) :
    (if jsTruthy t.remittanceInformationUnstructured then
       t.remittanceInformationUnstructured
     else if jsTruthy t.remittanceInformationStructured then
       t.remittanceInformationStructured
     else if 0 < (t.remittanceInformationStructuredArray.getD []).length then
       some (String.intercalate " " (t.remittanceInformationStructuredArray.getD []))
     else none) = remittanceBase t := by
  unfold remittanceBase jsOr
  by_cases h1 : jsTruthy t.remittanceInformationUnstructured = true <;>
    by_cases h2 : jsTruthy t.remittanceInformationStructured = true <;>
      simp [h1, h2]

/-- C5 (counterexample input): only a booking date and
`additionalInformation` are present. -/
def c5Input : Transaction :=
  { bookingDate := some "2023-01-01", additionalInformation := some "info" }

/-- C5 (counterexample): with none of the three remittance fields present
and `additionalInformation` present, the kept transaction's remittance text
is the JS coercion artifact `"undefined info"`, not the space-appended
`additionalInformation` the claim describes. -/
theorem c5_counterexample :
    (fallbackNormalizeTransaction c5Input).map
      (fun r => r.tx.remittanceInformationUnstructured) =
        some (some "undefined info") ∧
    specRemittanceText c5Input = some " info" ∧
    (fallbackNormalizeTransaction c5Input).map
      (fun r => r.tx.remittanceInformationUnstructured) ≠
        some (specRemittanceText c5Input) := by
  refine ⟨by decide, by decide, ?_⟩
  decide

/-- C5 (amended): for every raw transaction the default
`normalizeTransaction` keeps, the output's remittance text is the first
truthy (present and non-empty) of the unstructured string, the structured
string, and the space-joined structured array when non-empty — with
`additionalInformation`, when truthy, appended after a single space to that
base, an absent base being coerced to the string `"undefined"`. -/
theorem c5_remittance_text (t : Transaction) (r : NormalizedTransaction)
    (h : fallbackNormalizeTransaction t = some r) :
    r.tx.remittanceInformationUnstructured =
      appendAdditionalInformation (remittanceBase t) t.additionalInformation := by
  simp only [fallbackNormalizeTransaction] at h
  split at h
  · exact Option.noConfusion h
  · injection h with h'
    subst h'
    simp only [appendAdditionalInformation, remittanceBase_eq]

/-- C5 (witness): the amended statement applied to a transaction carrying a
structured remittance string and additional information. -/
def c5wIn : Transaction :=
  { bookingDate := some "2023-01-03"
    remittanceInformationStructured := some "ref 1"
    additionalInformation := some "extra" }

/-- C5 (witness): on `c5wIn` the kept transaction's remittance text equals
the amended characterization, here `"ref 1 extra"`. -/
theorem c5_witness :
    (fallbackNormalizeTransaction c5wIn).map
      (fun r => r.tx.remittanceInformationUnstructured) =
      some (appendAdditionalInformation (remittanceBase c5wIn)
        c5wIn.additionalInformation) ∧
    appendAdditionalInformation (remittanceBase c5wIn)
      c5wIn.additionalInformation = some "ref 1 extra" := by
  have h : fallbackNormalizeTransaction c5wIn = some
      { tx := { c5wIn with
                  remittanceInformationUnstructured := some "ref 1 extra" }
        date := some "2023-01-03" } := by decide
  refine ⟨?_, by decide⟩
  have hc := c5_remittance_text c5wIn _ h
  rw [h]
  exact congrArg some hc

/-- Parse every transaction amount of a list to minor units; `none` when
any amount is unparseable. -/
def parseAmounts : List Transaction → Option (List Int)
  | [] => some []
  | t :: ts =>
    match amountToInteger t.transactionAmount.amount, parseAmounts ts with
    | some a, some as => some (a :: as)
    | _, _ => none

/-- The reduce of the source: subtracting each parsed amount from a parsed
initial accumulator is the initial value minus the sum. -/
theorem foldl_jsSub (l : List Transaction) (as : List Int) (i : Int)
    (h : parseAmounts l = some as) :
    l.foldl
      (fun total trans => jsSub total (amountToInteger trans.transactionAmount.amount))
      (some i) = some (i - as.sum) := by
  induction l generalizing as i with
  | nil =>
    simp only [parseAmounts, Option.some.injEq] at h
    subst h
    simp
  | cons t ts ih =>
    simp only [parseAmounts] at h
    cases ha : amountToInteger t.transactionAmount.amount with
    | none => rw [ha] at h; exact Option.noConfusion h
    | some a =>
      rw [ha] at h
      cases hts : parseAmounts ts with
      | none => rw [hts] at h; exact Option.noConfusion h
      | some as' =>
        rw [hts] at h
        injection h with h
        subst h
        simp only [List.foldl_cons, ha]
        have h2 : jsSub (some i) (some a) = some (i - a) := rfl
        rw [h2, ih as' (i - a) hts]
        simp only [List.sum_cons, Option.some.injEq]
        omega

/-- C3: when the balance list holds an `interimAvailable` entry (the first
such entry being `currentBalance`) and every amount parses, the default
`calculateStartingBalance` returns the balance's minor-unit amount minus
the sum of the booked transactions' minor-unit amounts. -/
theorem c3_starting_balance
    (sortedTransactions : List Transaction) (balances : List Balance)
    (currentBalance : Balance) (startAmount : Int) (txAmounts : List Int)
    (hfind : balances.find? (fun balance => "interimAvailable" = balance.balanceType) =
      some currentBalance)
    (hstart : amountToInteger currentBalance.balanceAmount.amount = some startAmount)
    (htx : parseAmounts sortedTransactions = some txAmounts) :
    calculateStartingBalance sortedTransactions balances =
      .ok (some (startAmount - txAmounts.sum)) := by
  unfold calculateStartingBalance
  simp only [hfind]
  rw [hstart, foldl_jsSub sortedTransactions txAmounts startAmount htx]

/-- C3 (witness): the spec's worked example — balance `"1000.00"` of type
`interimAvailable` and booked amounts `-500` and `200` minor units (decimal
strings `"-5.00"` and `"2.00"`) yield `100000 - (-500 + 200) = 100300`. -/
theorem c3_witness :
    calculateStartingBalance
      [ { transactionAmount := ⟨"-5.00", "EUR"⟩ },
        { transactionAmount := ⟨"2.00", "EUR"⟩ } ]
      [ ⟨"interimAvailable", ⟨"1000.00", "EUR"⟩⟩ ] = .ok (some 100300) := by
  have h := c3_starting_balance
    [ { transactionAmount := ⟨"-5.00", "EUR"⟩ },
      { transactionAmount := ⟨"2.00", "EUR"⟩ } ]
    [ ⟨"interimAvailable", ⟨"1000.00", "EUR"⟩⟩ ]
    ⟨"interimAvailable", ⟨"1000.00", "EUR"⟩⟩ 100000 [-500, 200]
    (by decide) (by decide) (by decide)
  rw [h]
  norm_num

/-- C10: the default `calculateStartingBalance` is total exactly on balance
lists holding an `interimAvailable` entry: without one it faults (the
source dereferences `currentBalance.balanceAmount` on `undefined`) for
every transaction list, and with one the faulting branch is unreachable. -/
theorem c10_totality (sortedTransactions : List Transaction)
    (balances : List Balance) :
    ((∀ b ∈ balances, b.balanceType ≠ "interimAvailable") →
      calculateStartingBalance sortedTransactions balances =
        .error .typeError) ∧
    ((∃ b ∈ balances, b.balanceType = "interimAvailable") →
      ∃ result, calculateStartingBalance sortedTransactions balances =
        .ok result) := by
  constructor
  · intro hnone
    unfold calculateStartingBalance
    have : balances.find? (fun balance => "interimAvailable" = balance.balanceType) =
        none := by
      rw [List.find?_eq_none]
      intro b hb
      simp only [decide_eq_true_eq]
      exact fun he => hnone b hb he.symm
    rw [this]
  · intro ⟨b, hb, hty⟩
    unfold calculateStartingBalance
    cases hfind : balances.find?
        (fun balance => "interimAvailable" = balance.balanceType) with
    | none =>
      rw [List.find?_eq_none] at hfind
      exact absurd (by simpa using hty.symm) (by simpa using hfind b hb)
    | some currentBalance => exact ⟨_, rfl⟩

/-- C10 (witness): with only a `closingBooked` balance the computation
faults; with an `interimAvailable` balance it returns a value. -/
theorem c10_witness :
    calculateStartingBalance [] [⟨"closingBooked", ⟨"1.00", "EUR"⟩⟩] =
      .error .typeError ∧
    calculateStartingBalance [] [⟨"interimAvailable", ⟨"1.00", "EUR"⟩⟩] =
      .ok (some 100) := by
  constructor
  · exact (c10_totality [] [⟨"closingBooked", ⟨"1.00", "EUR"⟩⟩]).1
      (by intro b hb; simp at hb; simp [hb])
  · obtain ⟨result, hr⟩ := (c10_totality []
      [⟨"interimAvailable", ⟨"1.00", "EUR"⟩⟩]).2
      ⟨⟨"interimAvailable", ⟨"1.00", "EUR"⟩⟩, by simp, rfl⟩
    rw [hr]
    have : result = some 100 := by
      have := hr.symm.trans (by rfl :
        calculateStartingBalance [] [⟨"interimAvailable", ⟨"1.00", "EUR"⟩⟩] =
          .ok (some 100))
      exact (Except.ok.injEq _ _ ▸ this : result = some 100)
    rw [this]

/-- C6: `handleNordigenError` throws exactly on status codes 400, 401, 403,
404, 409, 429, 500 and 503, with the claimed code-to-error mapping; every
other or absent status code falls through the `default: return` branch and
is not treated as an error. -/
theorem c6_error_taxonomy :
    (∀ code : Option Int, (handleNordigenError code).isSome = true ↔
      code = some 400 ∨ code = some 401 ∨ code = some 403 ∨
      code = some 404 ∨ code = some 409 ∨ code = some 429 ∨
      code = some 500 ∨ code = some 503) ∧
    handleNordigenError (some 400) = some .invalidInputData ∧
    handleNordigenError (some 401) = some .invalidNordigenToken ∧
    handleNordigenError (some 403) = some .accessDenied ∧
    handleNordigenError (some 404) = some .notFound ∧
    handleNordigenError (some 409) = some .resourceSuspended ∧
    handleNordigenError (some 429) = some .rateLimit ∧
    handleNordigenError (some 500) = some .unknown ∧
    handleNordigenError (some 503) = some .serviceError ∧
    handleNordigenError none = none := by
  refine ⟨?_, by decide, by decide, by decide, by decide, by decide,
    by decide, by decide, by decide, by decide⟩
  intro code
  unfold handleNordigenError
  split_ifs with h1 h2 h3 h4 h5 h6 h7 h8 <;> simp_all

/-- `checkNordigen` never succeeds with an error payload other than a
taxonomy error. -/
theorem checkNordigen_error {code : Option Int} {e : SvcError}
    (h : checkNordigen code = .error e) : ∃ ne, e = .nordigen ne := by
  unfold checkNordigen at h
  cases hh : handleNordigenError code with
  | none => rw [hh] at h; exact Except.noConfusion h
  | some ne => rw [hh] at h; injection h with h; exact ⟨ne, h.symm⟩

/-- Under a collaborator that reports no failure code, fetching a
requisition whose status is not `"LN"` fails with `RequisitionNotLinked`
carrying that status. -/
theorem getLinkedRequisition_not_linked
    (client : AggregationClient) (requisitionId : String) (token : Option String)
    (htok : client.generateToken.status_code = none)
    (hreq : (client.getRequisitionById requisitionId).status_code = none)
    (hstatus : (client.getRequisitionById requisitionId).status ≠ "LN") :
    getLinkedRequisition client requisitionId token =
      .error (.requisitionNotLinked
        (client.getRequisitionById requisitionId).status) := by
  have hchk : checkNordigen (none : Option Int) = .ok () := by
    simp [checkNordigen, handleNordigenError]
  unfold getLinkedRequisition getRequisition setToken
  by_cases ht : jsTruthy token = true
  · simp [ht, htok, hreq, hchk, hstatus]
  · simp [ht, htok, hreq, hchk, hstatus]

/-- Under a collaborator that reports no failure code, fetching a linked
requisition returns the requisition object unchanged (and the token cached
or fetched as needed). -/
theorem getLinkedRequisition_linked
    (client : AggregationClient) (requisitionId : String) (token : Option String)
    (htok : client.generateToken.status_code = none)
    (hreq : (client.getRequisitionById requisitionId).status_code = none)
    (hstatus : (client.getRequisitionById requisitionId).status = "LN") :
    getLinkedRequisition client requisitionId token =
      .ok (if jsTruthy token then token else some client.generateToken.access,
        client.getRequisitionById requisitionId) := by
  have hchk : checkNordigen (none : Option Int) = .ok () := by
    simp [checkNordigen, handleNordigenError]
  unfold getLinkedRequisition getRequisition setToken
  by_cases ht : jsTruthy token = true
  · simp [ht, htok, hreq, hchk, hstatus]
  · simp [ht, htok, hreq, hchk, hstatus]

/-- C7: with a collaborator that reports no failure code, a requisition
whose status is anything but `"LN"` makes `getLinkedRequisition`,
`getRequisitionWithAccounts` and `getTransactionsWithBalance` all fail with
`RequisitionNotLinked`; a linked requisition is returned unchanged by
`getLinkedRequisition`. -/
theorem c7_link_status_guard
    (client : AggregationClient)
    (requisitionId accountId startDate endDate : String) (token : Option String)
    (htok : client.generateToken.status_code = none)
    (hreq : (client.getRequisitionById requisitionId).status_code = none) :
    ((client.getRequisitionById requisitionId).status ≠ "LN" →
      (getLinkedRequisition client requisitionId token =
        .error (.requisitionNotLinked
          (client.getRequisitionById requisitionId).status) ∧
      getRequisitionWithAccounts client requisitionId token =
        .error (.requisitionNotLinked
          (client.getRequisitionById requisitionId).status) ∧
      getTransactionsWithBalance client requisitionId accountId startDate
          endDate token =
        .error (.requisitionNotLinked
          (client.getRequisitionById requisitionId).status))) ∧
    ((client.getRequisitionById requisitionId).status = "LN" →
      getLinkedRequisition client requisitionId token =
        .ok (if jsTruthy token then token else some client.generateToken.access,
          client.getRequisitionById requisitionId)) := by
  constructor
  · intro hstatus
    have hlr := getLinkedRequisition_not_linked client requisitionId token
      htok hreq hstatus
    refine ⟨hlr, ?_, ?_⟩
    · unfold getRequisitionWithAccounts
      simp only [hlr]
    · unfold getTransactionsWithBalance
      simp only [hlr]
  · exact getLinkedRequisition_linked client requisitionId token htok hreq

/-- C7 (witness): a mocked collaborator whose requisition `R1` is still in
status `"CR"`. -/
def c7MockClient : AggregationClient where
  generateToken := { access := "tok" }
  getRequisitionById := fun _ =>
    { id := "R1", status := "CR", accounts := ["A1"], institution_id := "INST" }
  getDetails := fun _ => { account := { iban := some "DE00" } }
  getMetadata := fun _ => {}
  getInstitutionById := fun i => { id := i }
  getTransactions := fun _ _ _ => {}
  getBalances := fun _ => {}

/-- C7 (witness): all three operations fail with `RequisitionNotLinked "CR"`
against `c7MockClient`. -/
theorem c7_witness :
    getLinkedRequisition c7MockClient "R1" none =
      .error (.requisitionNotLinked "CR") ∧
    getRequisitionWithAccounts c7MockClient "R1" none =
      .error (.requisitionNotLinked "CR") ∧
    getTransactionsWithBalance c7MockClient "R1" "A1" "2023-01-01"
        "2023-02-01" none =
      .error (.requisitionNotLinked "CR") :=
  (c7_link_status_guard c7MockClient "R1" "A1" "2023-01-01" "2023-02-01"
    none rfl rfl).1 (by decide)

/-- C8: with a collaborator reporting no failure code and a linked
requisition, `getTransactionsWithBalance` fails with
`AccountNotLinedToRequisition` exactly when `accountId` is not in the
requisition's linked-account list; a listed account can never produce that
error — the operation proceeds to the transaction/balance fetches, whose
own failures are taxonomy or runtime errors, not linkage errors. -/
theorem c8_linkage_guard
    (client : AggregationClient)
    (requisitionId accountId startDate endDate : String) (token : Option String)
    (htok : client.generateToken.status_code = none)
    (hreq : (client.getRequisitionById requisitionId).status_code = none)
    (hlinked : (client.getRequisitionById requisitionId).status = "LN") :
    (getTransactionsWithBalance client requisitionId accountId startDate
        endDate token =
      .error (.accountNotLinedToRequisition accountId requisitionId)) ↔
    accountId ∉ (client.getRequisitionById requisitionId).accounts := by
  have hlr := getLinkedRequisition_linked client requisitionId token
    htok hreq hlinked
  unfold getTransactionsWithBalance
  simp only [hlr]
  by_cases hmem : accountId ∈ (client.getRequisitionById requisitionId).accounts
  · rw [if_neg (by simpa using hmem)]
    simp only [hmem, not_true_eq_false, iff_false]
    intro hcontra
    cases h1 : checkNordigen
        (client.getTransactions accountId startDate endDate).status_code with
    | error e =>
      simp only [h1] at hcontra
      obtain ⟨ne, rfl⟩ := checkNordigen_error h1
      simp at hcontra
    | ok u =>
      cases u
      simp only [h1] at hcontra
      cases h2 : checkNordigen (client.getBalances accountId).status_code with
      | error e =>
        simp only [h2] at hcontra
        obtain ⟨ne, rfl⟩ := checkNordigen_error h2
        simp at hcontra
      | ok u =>
        cases u
        simp only [h2] at hcontra
        cases h3 : (BankFactory
            (client.getRequisitionById requisitionId).institution_id).calculateStartingBalance
            ((BankFactory
              (client.getRequisitionById requisitionId).institution_id).sortTransactions
              ((client.getTransactions accountId startDate endDate).transactions.bind
                (fun t => t.booked)))
            (client.getBalances accountId).balances with
        | error e =>
          simp only [h3] at hcontra
          simp at hcontra
        | ok sb =>
          simp only [h3] at hcontra
          simp at hcontra
  · rw [if_pos (by simpa using hmem)]
    simp [hmem]

/-- C8 (witness): a mocked collaborator with linked requisition `R1` over
accounts `A1` and `A2`. -/
def c8MockClient : AggregationClient where
  generateToken := { access := "tok" }
  getRequisitionById := fun _ =>
    { id := "R1", status := "LN", accounts := ["A1", "A2"]
      institution_id := "INST" }
  getDetails := fun _ => { account := { iban := some "DE00" } }
  getMetadata := fun _ => {}
  getInstitutionById := fun i => { id := i }
  getTransactions := fun _ _ _ =>
    { transactions := some { booked := some [], pending := some [] } }
  getBalances := fun _ =>
    { balances := [⟨"interimAvailable", ⟨"10.00", "EUR"⟩⟩] }

/-- C8 (witness): `A3` fails the linkage guard, `A1` passes it (and the
call completes against the mocked collaborator). -/
theorem c8_witness :
    getTransactionsWithBalance c8MockClient "R1" "A3" "2023-01-01"
        "2023-02-01" none =
      .error (.accountNotLinedToRequisition "A3" "R1") ∧
    getTransactionsWithBalance c8MockClient "R1" "A1" "2023-01-01"
        "2023-02-01" none ≠
      .error (.accountNotLinedToRequisition "A1" "R1") ∧
    getTransactionsWithBalance c8MockClient "R1" "A1" "2023-01-01"
        "2023-02-01" none =
      .ok (some "tok",
        { balances := [⟨"interimAvailable", ⟨"10.00", "EUR"⟩⟩]
          institutionId := "INST"
          startingBalance := some 1000
          booked := []
          pending := [] }) := by
  refine ⟨?_, ?_, rfl⟩
  · exact (c8_linkage_guard c8MockClient "R1" "A3" "2023-01-01" "2023-02-01"
      none rfl rfl rfl).mpr (by decide)
  · intro h
    exact absurd ((c8_linkage_guard c8MockClient "R1" "A1" "2023-01-01"
      "2023-02-01" none rfl rfl rfl).mp h) (by decide)

/-- Running a concatenated schedule runs the two parts in order. -/
theorem runTokenSchedule_append (accessOf : Nat → String)
    (s1 s2 : List Nat) (w : TokenWorld) :
    runTokenSchedule accessOf (s1 ++ s2) w =
      runTokenSchedule accessOf s2 (runTokenSchedule accessOf s1 w) := by
  induction s1 generalizing w with
  | nil => rfl
  | cons i rest ih => simp [runTokenSchedule, ih]

/-- Once the cached token is truthy and no caller sits between its check
and its write, no schedule changes the shared state: late callers see the
cache and never fetch. -/
theorem runTokenSchedule_stable (accessOf : Nat → String) (sched : List Nat)
    (w : TokenWorld) (htok : jsTruthy w.state.token = true)
    (hth : ∀ pc ∈ w.threads, pc = TokenPC.start ∨ pc = TokenPC.done) :
    (runTokenSchedule accessOf sched w).state = w.state := by
  induction sched generalizing w with
  | nil => rfl
  | cons i rest ih =>
    have hget : w.threads.getD i TokenPC.done = TokenPC.start ∨
        w.threads.getD i TokenPC.done = TokenPC.done := by
      rcases Nat.lt_or_ge i w.threads.length with hlt | hge
      · have he : w.threads.getD i TokenPC.done = w.threads[i] := by
          simp [List.getD_eq_getElem?_getD, List.getElem?_eq_getElem hlt]
        rw [he]
        exact hth _ (List.getElem_mem hlt)
      · right
        simp [List.getD_eq_getElem?_getD, List.getElem?_eq_none hge]
    have hstep : tokenStep accessOf w.state (w.threads.getD i TokenPC.done) =
        (w.state, TokenPC.done) := by
      rcases hget with hg | hg <;> rw [hg] <;> simp [tokenStep, htok]
    simp only [runTokenSchedule, hstep]
    exact ih _ htok (fun pc hpc => by
      rcases List.mem_or_eq_of_mem_set hpc with h | h
      · exact hth pc h
      · right
        exact h)

/-- C9 (counterexample): two concurrent first-time callers, both suspended
at the `await nordigenClient.generateToken()` point before either has
assigned the cache, issue two token fetches — the check-then-act in
`setToken` has no single-flight guard, so the claimed "exactly one
underlying token-fetch call" fails for N = 2. -/
theorem c9_counterexample :
    (runTokenSchedule (fun k => if k = 0 then "tokA" else "tokB")
      [0, 1, 0, 1] (freshTokenWorld 2)).state.calls = 2 := by decide

/-- C9 (amended): the token cache does work when first-time callers are
serialized: running any number of callers one after another from a fresh
process issues exactly one `generateToken` call, and the fetched token
stays cached for all later callers. -/
theorem c9_token_cached_serial (accessOf : Nat → String) (n : Nat)
    (h0 : accessOf 0 ≠ "") :
    (runTokenSchedule accessOf (serialSchedule (n + 1))
      (freshTokenWorld (n + 1))).state =
      { token := some (accessOf 0), calls := 1 } := by
  have hsched : serialSchedule (n + 1) =
      [0, 0] ++ ((List.range n).map Nat.succ).flatMap (fun i => [i, i]) := by
    simp [serialSchedule, List.range_succ_eq_map]
  have h2 : runTokenSchedule accessOf [0, 0] (freshTokenWorld (n + 1)) =
      { threads := TokenPC.done :: List.replicate n TokenPC.start
        state := { token := some (accessOf 0), calls := 1 } } := rfl
  rw [hsched, runTokenSchedule_append, h2]
  exact runTokenSchedule_stable accessOf _ _ (by simp [jsTruthy, h0])
    (fun pc hpc => by
      rcases List.mem_cons.mp hpc with h | h
      · right
        exact h
      · left
        exact List.eq_of_mem_replicate h)

/-- C9 (witness): the amended statement at two serialized callers with a
constant collaborator token. -/
theorem c9_witness :
    (runTokenSchedule (fun _ => "tok") (serialSchedule 2)
      (freshTokenWorld 2)).state = { token := some "tok", calls := 1 } :=
  c9_token_cached_serial (fun _ => "tok") 1 (by decide)
